import Mathlib

/-!
Verification of the aiops-testing-webapp authentication and settings
subsystems, shallowly embedded from `app/auth.py`, `app/api/auth.py`,
`app/api/settings.py` and `app/models/settings.py`.

Conventions of the embedding:
* The database is a value of type `DB` (a list of `User` rows plus the
  optional singleton `Settings` row); each handler is a pure function from
  the request data and the current `DB` to a result, returning the new `DB`
  where the handler commits.
* `HTTPException(status, detail)` raised by a handler becomes
  `Except.error ⟨status, detail⟩`; a handler that errors performs no commit,
  so the caller's `DB` is unchanged by construction.
* Timestamps (`datetime.utcnow()`) are natural numbers (seconds).
* JWT tokens (python-jose, HS256) are embedded symbolically: a signed token
  carries its claim set and the key it was signed with; `verify_token`
  succeeds exactly on tokens signed with `SECRET_KEY` that are not expired.
* bcrypt hashing (passlib) is embedded as an abstract injective tag;
  `verify_password` succeeds exactly on the matching plaintext, which is the
  contract the code relies on.
-/

namespace AiopsWebapp

/-- A row of the `users` table (`app/models/user.py`, reconstructed from its
uses in `app/api/auth.py`): id primary key, unique username and email,
bcrypt hash, admin and active flags, optional last-login timestamp. -/
structure User where
  id : Nat
  username : String
  email : String
  hashed_password : String
  is_admin : Bool
  is_active : Bool
  last_login : Option Nat
deriving DecidableEq

/-- The singleton row of the `settings` table (`app/models/settings.py`).
Columns that are nullable in the schema are `Option`s. -/
structure SettingsRow where
  aiops_url : Option String
  api_token : Option String
  ssh_host : Option String
  ssh_port : Option Int
  test_path : Option String
  timeout : Option Int
  parallel_execution : Bool
  max_parallel : Int
  retry_failed : Bool
  retry_count : Int
  updated_by : Option String
deriving DecidableEq

/-- The relational store: the `users` table and the (at most one)
`settings` row. -/
structure DB where
  users : List User
  settings : Option SettingsRow
deriving DecidableEq

/-- An `HTTPException`: status code and human-readable detail. -/
structure HttpError where
  status : Nat
  detail : String
deriving DecidableEq

/-- `SECRET_KEY` from `app/auth.py`. -/
def SECRET_KEY : String := "your-secret-key-change-in-production"

/-- `ACCESS_TOKEN_EXPIRE_MINUTES` from `app/auth.py`. -/
def ACCESS_TOKEN_EXPIRE_MINUTES : Nat := 30

/-- The claim set a token of this app carries: `{"sub": ..., "exp": ...}`
(`create_access_token` puts the subject under `"sub"` and stamps `"exp"`). -/
structure TokenPayload where
  sub : Option String
  exp : Nat
deriving DecidableEq

/-- A bearer token, embedded symbolically: either a well-formed JWT carrying
its payload and the signing key, or a malformed string. -/
inductive Token where
  | signed (payload : TokenPayload) (key : String)
  | malformed (s : String)
deriving DecidableEq

/-- `create_access_token(data={"sub": sub})` with the default expiry:
a token signed with `SECRET_KEY` whose `exp` is `now` plus 30 minutes
(`app/auth.py`). -/
def create_access_token (sub : String) (now : Nat) : Token :=
  .signed ⟨some sub, now + ACCESS_TOKEN_EXPIRE_MINUTES * 60⟩ SECRET_KEY

/-- `verify_token(token)` (`app/auth.py`): `jwt.decode` returns the claim set
when the signature matches `SECRET_KEY` and the token is unexpired, and
raises `JWTError` (here: `none`) otherwise. -/
def verify_token (now : Nat) : Token → Option TokenPayload
  | .signed p key => if key = SECRET_KEY ∧ now < p.exp then some p else none
  | .malformed _ => none

/-- bcrypt hashing (`get_password_hash`), embedded as an abstract injective
tag on the plaintext. -/
def get_password_hash (password : String) : String :=
  "bcrypt$" ++ password

/-- `verify_password(plain, hashed)`: succeeds exactly when `hashed` is the
hash of `plain` (the bcrypt contract the code relies on). -/
def verify_password (plain hashed : String) : Bool :=
  hashed = get_password_hash plain

/-- `select(User).where(User.username == name)` followed by
`scalar_one_or_none()`. `username` is a unique column, so the first match is
the only match. -/
def findUserByName (users : List User) (name : String) : Option User :=
  users.find? (fun u => u.username = name)

/-- `select(User).where(User.email == email)` followed by
`scalar_one_or_none()`. -/
def findUserByEmail (users : List User) (email : String) : Option User :=
  users.find? (fun u => u.email = email)

/-- `select(User).where(User.id == user_id)` followed by
`scalar_one_or_none()`. -/
def findUserById (users : List User) (user_id : Nat) : Option User :=
  users.find? (fun u => u.id = user_id)

/-- `get_current_user(request, db)` (`app/api/auth.py`): read the
`access_token` cookie; return `None` (never an error) when the cookie is
absent, the token invalid or expired, the `sub` claim missing, or no user
has that username; otherwise the user row named by `sub`. -/
def get_current_user (db : DB) (now : Nat) (cookie : Option Token) : Option User :=
  match cookie with
  | none => none
  | some token =>
    match verify_token now token with
    | none => none
    | some payload =>
      match payload.sub with
      | none => none
      | some username => findUserByName db.users username

/-- `require_auth(request, db)` (`app/api/auth.py`): same resolution, but
raises 401 "Not authenticated" when no user is resolved. -/
def require_auth (db : DB) (now : Nat) (cookie : Option Token) : Except HttpError User :=
  match get_current_user db now cookie with
  | none => .error ⟨401, "Not authenticated"⟩
  | some u => .ok u

/-- The pydantic schema `SettingsUpdate` (`app/api/settings.py`): every
field optional or defaulted exactly as declared. -/
structure SettingsUpdate where
  aiops_url : Option String := none
  api_token : Option String := none
  ssh_host : Option String := none
  ssh_port : Option Int := some 22
  test_path : Option String := none
  timeout : Option Int := some 30
  parallel_execution : Bool := false
  max_parallel : Int := 5
  retry_failed : Bool := false
  retry_count : Int := 3
deriving DecidableEq

/-- The JSON object both branches of `get_settings` return: the ten settings
fields, all non-null. -/
structure SettingsOut where
  aiops_url : String
  api_token : String
  ssh_host : String
  ssh_port : Int
  test_path : String
  timeout : Int
  parallel_execution : Bool
  max_parallel : Int
  retry_failed : Bool
  retry_count : Int
deriving DecidableEq

/-- Python's `x or d` on a nullable string column: `None` and `""` are falsy
and give `d`. -/
def pyOrStr (x : Option String) (d : String) : String :=
  match x with
  | none => d
  | some s => if s = "" then d else s

/-- Python's `x or d` on a nullable integer column: `None` and `0` are falsy
and give `d`. -/
def pyOrInt (x : Option Int) (d : Int) : Int :=
  match x with
  | none => d
  | some n => if n = 0 then d else n

/-- The dict `get_settings` builds from an existing `Settings` row
(`app/api/settings.py`, the second return): each nullable column passed
through Python's `or` with its documented default. -/
def renderSettings (s : SettingsRow) : SettingsOut where
  aiops_url := pyOrStr s.aiops_url ""
  api_token := pyOrStr s.api_token ""
  ssh_host := pyOrStr s.ssh_host ""
  ssh_port := pyOrInt s.ssh_port 22
  test_path := pyOrStr s.test_path ""
  timeout := pyOrInt s.timeout 30
  parallel_execution := s.parallel_execution
  max_parallel := s.max_parallel
  retry_failed := s.retry_failed
  retry_count := s.retry_count

/-- The body of `get_settings` (`app/api/settings.py`): fetch the first
`Settings` row; when none exists return the hard-coded default dict,
otherwise render the row. -/
def get_settings_body (db : DB) : SettingsOut :=
  match db.settings with
  | none =>
    { aiops_url := ""
      api_token := ""
      ssh_host := ""
      ssh_port := 22
      test_path := ""
      timeout := 30
      parallel_execution := false
      max_parallel := 5
      retry_failed := false
      retry_count := 3 }
  | some s => renderSettings s

/-- The endpoint `GET /api/settings`: its `current_user` dependency is
`Depends(get_current_user)`, which returns `None` rather than raising, so
the body runs — and reads the `Settings` row — whether or not a valid
session is present. -/
def get_settings_endpoint (db : DB) (now : Nat) (cookie : Option Token) :
    Except HttpError SettingsOut :=
  let _current_user : Option User := get_current_user db now cookie
  .ok (get_settings_body db)

/-- `save_settings` (`app/api/settings.py`): upsert the singleton row,
overwriting every field from the payload, and stamp `updated_by` with
`current_user.username`. The dependency is again `Depends(get_current_user)`:
with no session `current_user` is `None` and `current_user.username` raises
`AttributeError`, which the framework surfaces as a 500 with no commit. -/
def save_settings (db : DB) (settings_data : SettingsUpdate)
    (current_user : Option User) : Except HttpError (DB × String) :=
  match current_user with
  | none => .error ⟨500, "Internal Server Error"⟩
  | some user =>
    let s : SettingsRow :=
      { aiops_url := settings_data.aiops_url
        api_token := settings_data.api_token
        ssh_host := settings_data.ssh_host
        ssh_port := settings_data.ssh_port
        test_path := settings_data.test_path
        timeout := settings_data.timeout
        parallel_execution := settings_data.parallel_execution
        max_parallel := settings_data.max_parallel
        retry_failed := settings_data.retry_failed
        retry_count := settings_data.retry_count
        updated_by := some user.username }
    .ok ({ db with settings := some s }, "Settings saved successfully")

/-- The endpoint `POST /api/settings`, wiring the `get_current_user`
dependency (which never raises) into `save_settings`. -/
def save_settings_endpoint (db : DB) (now : Nat) (cookie : Option Token)
    (settings_data : SettingsUpdate) : Except HttpError (DB × String) :=
  save_settings db settings_data (get_current_user db now cookie)

/-- What the outbound `GET {url}/health` of `test_connection` can produce:
a response (status, content-type header, body text), `httpx.ConnectError`,
`httpx.TimeoutException`, or any other exception. -/
inductive ProbeOutcome where
  | response (status : Nat) (contentType : String) (body : String)
  | connectError
  | timeoutError
  | otherError (msg : String)
deriving DecidableEq

/-- The JSON object `test_connection` returns (its `response` field is
absent, `none`, on the non-200 branch). -/
structure TestConnResult where
  success : Bool
  message : String
  status_code : Nat
  response : Option String
deriving DecidableEq

/-- `test_connection` (`app/api/settings.py`): 400 on empty url before any
request; otherwise issue the probe and branch on `status_code == 200`
(success echoing the body — parsed JSON when the content type says so, else
the first 200 characters of the text), any other status (failure reporting
the code), `ConnectError` (503), `TimeoutException` (504), or any other
exception (500). -/
def test_connection (url : String) (_token : Option String)
    (outcome : ProbeOutcome) : Except HttpError TestConnResult :=
  if url = "" then .error ⟨400, "URL is required"⟩
  else
    match outcome with
    | .response status contentType body =>
      if status = 200 then
        .ok { success := true
              message := "Connection successful"
              status_code := status
              response := some (if contentType.startsWith "application/json"
                                then body else body.take 200) }
      else
        .ok { success := false
              message := "Connection failed with status " ++ toString status
              status_code := status
              response := none }
    | .connectError =>
      .error ⟨503, "Cannot connect to the target system. Please check the URL and network connectivity."⟩
    | .timeoutError =>
      .error ⟨504, "Connection timeout. The target system is not responding."⟩
    | .otherError msg =>
      .error ⟨500, "Connection test failed: " ++ msg⟩

/-- The endpoint `POST /api/settings/test-connection`: the
`get_current_user` dependency never raises, so the probe runs whether or not
a valid session is present. -/
def test_connection_endpoint (db : DB) (now : Nat) (cookie : Option Token)
    (url : String) (token : Option String) (outcome : ProbeOutcome) :
    Except HttpError TestConnResult :=
  let _current_user : Option User := get_current_user db now cookie
  test_connection url token outcome

/-- The JSON object `POST /auth/token` returns on success. -/
structure TokenOut where
  access_token : Token
  token_type : String
deriving DecidableEq

/-- `login_for_access_token` (`app/api/auth.py`): look the user up by
username; 401 "Invalid credentials" when absent or the password does not
verify; 401 "Inactive account" when `is_active` is false; otherwise stamp
`last_login = now`, commit, and return a fresh token with token type
"bearer". -/
def login_for_access_token (db : DB) (now : Nat) (username password : String) :
    Except HttpError (DB × TokenOut) :=
  match findUserByName db.users username with
  | none => .error ⟨401, "Invalid credentials"⟩
  | some user =>
    if ¬ verify_password password user.hashed_password then
      .error ⟨401, "Invalid credentials"⟩
    else if ¬ user.is_active then
      .error ⟨401, "Inactive account"⟩
    else
      let users' := db.users.map (fun v =>
        if v.username = username then { v with last_login := some now } else v)
      .ok ({ db with users := users' },
           { access_token := create_access_token user.username now
             token_type := "bearer" })

/-- `last_login.isoformat()`: timestamps are rendered injectively. -/
def isoformat (t : Nat) : String :=
  "1970-01-01T00:00:" ++ toString t

/-- The dict `GET /auth/me` returns for the resolved user, as an ordered
list of key/value pairs (values rendered to strings as JSON scalars). -/
def meResponse (u : User) : List (String × String) :=
  [("id", toString u.id),
   ("username", u.username),
   ("email", u.email),
   ("is_admin", toString u.is_admin),
   ("last_login", match u.last_login with
                  | some t => isoformat t
                  | none => "null")]

/-- `get_current_user_info` (`app/api/auth.py`), the `GET /auth/me` handler:
`Depends(require_auth)` (401 with no valid session), then the five public
fields of the resolved user — the password hash is never put in the
response. -/
def get_current_user_info (db : DB) (now : Nat) (cookie : Option Token) :
    Except HttpError (List (String × String)) :=
  match require_auth db now cookie with
  | .error e => .error e
  | .ok u => .ok (meResponse u)

/-- The JSON object `POST /auth/register` returns on success. -/
structure RegisterOut where
  id : Nat
  username : String
  email : String
  message : String
deriving DecidableEq

/-- `register_user` (`app/api/auth.py`): 400 when the username already
exists, 400 when the email already exists, otherwise insert a new user with
the hashed password, `is_admin=False`, `is_active=True` (hard-coded — the
request carries only username, email and password) and commit. `nextId` is
the primary key the database assigns. -/
def register_user (db : DB) (username email password : String) (nextId : Nat) :
    Except HttpError (DB × RegisterOut) :=
  if (findUserByName db.users username).isSome then
    .error ⟨400, "Username already exists"⟩
  else if (findUserByEmail db.users email).isSome then
    .error ⟨400, "Email already exists"⟩
  else
    let new_user : User :=
      { id := nextId
        username := username
        email := email
        hashed_password := get_password_hash password
        is_admin := false
        is_active := true
        last_login := none }
    .ok ({ db with users := db.users ++ [new_user] },
         { id := nextId, username := username, email := email
           message := "User created successfully" })

/-- The database state after a call to `register_user`: unchanged when the
call raised (no commit happened). -/
def register_post (db : DB) (username email password : String) (nextId : Nat) : DB :=
  match register_user db username email password nextId with
  | .error _ => db
  | .ok (db', _) => db'

/-- The database state after a whole sequence of registration requests,
each processed by `register_user`. -/
def register_seq (db : DB) (reqs : List (String × String × String × Nat)) : DB :=
  reqs.foldl (fun d r => register_post d r.1 r.2.1 r.2.2.1 r.2.2.2) db

/-- `delete_user` (`app/api/auth.py`): 403 unless the caller is an admin;
404 when no user has the id; 400 when the resolved user is the caller;
otherwise delete that row and commit. `id` is the primary key, so the
deleted row is the unique row with that id. -/
def delete_user (db : DB) (current_user : User) (user_id : Nat) :
    Except HttpError (DB × String) :=
  if ¬ current_user.is_admin then
    .error ⟨403, "Admin access required"⟩
  else
    match findUserById db.users user_id with
    | none => .error ⟨404, "User not found"⟩
    | some user =>
      if user.id = current_user.id then
        .error ⟨400, "Cannot delete yourself"⟩
      else
        .ok ({ db with users := db.users.eraseP (fun v => v.id = user_id) },
             "User " ++ user.username ++ " deleted successfully")

/-- No two users share a username, no two share an email (the unique
constraints on the `users` table). -/
def uniqueUsers (users : List User) : Prop :=
  users.Pairwise (fun a b => a.username ≠ b.username ∧ a.email ≠ b.email)

/-- The fixture Settings row the test suite stores
(`tests/conftest.py`, `test_settings`). -/
def fixtureSettingsRow : SettingsRow :=
  { aiops_url := some "http://localhost:8000"
    api_token := some "test_token"
    ssh_host := some "localhost"
    ssh_port := some 22
    test_path := some "/opt/tests"
    timeout := some 30
    parallel_execution := false
    max_parallel := 5
    retry_failed := false
    retry_count := 3
    updated_by := none }

/-! ## Helper lemmas -/

/-- `find?` by username commutes with mapping a username-preserving function
over the table. -/
theorem findUserByName_map (f : User → User)
    (hf : ∀ v, (f v).username = v.username) (l : List User) (name : String) :
    findUserByName (l.map f) name = (findUserByName l name).map f := by
  induction l with
  | nil => rfl
  | cons x xs ih =>
    by_cases hx : x.username = name
    · simp [findUserByName, List.find?_cons, hf, hx]
    · simpa [findUserByName, List.find?_cons, hf, hx] using ih

/-! ## Claim theorems -/

/-- C4: when no Settings row exists, `GET /api/settings` returns exactly the
documented defaults: `aiops_url`/`api_token`/`ssh_host`/`test_path` all `""`,
`ssh_port` 22, `timeout` 30, `max_parallel` 5, `retry_count` 3, and
`parallel_execution`/`retry_failed` both false. -/
theorem get_settings_no_row_returns_defaults (db : DB) (now : Nat)
    (cookie : Option Token) (h : db.settings = none) :
    get_settings_endpoint db now cookie =
      .ok { aiops_url := "", api_token := "", ssh_host := "", ssh_port := 22,
            test_path := "", timeout := 30, parallel_execution := false,
            max_parallel := 5, retry_failed := false, retry_count := 3 } := by
  simp [get_settings_endpoint, get_settings_body, h]

/-- Witness for C4: a concrete database with no Settings row. -/
theorem get_settings_no_row_returns_defaults_witness :
    get_settings_endpoint ⟨[], none⟩ 0 none =
      .ok { aiops_url := "", api_token := "", ssh_host := "", ssh_port := 22,
            test_path := "", timeout := 30, parallel_execution := false,
            max_parallel := 5, retry_failed := false, retry_count := 3 } :=
  get_settings_no_row_returns_defaults ⟨[], none⟩ 0 none rfl

set_option maxRecDepth 4000 in
/-- C1: the settings endpoints are NOT session-gated. With no session token
at all, `GET /api/settings` runs its handler, reads the stored Settings row
and returns it with 200 (instead of failing 401 with no read);
`POST /api/settings` fails 500 (an `AttributeError` on
`current_user.username`), not 401; and `POST /api/settings/test-connection`
performs the outbound probe and returns its result. The handlers take
`Depends(get_current_user)`, which returns `None` instead of raising, where
the claim (and `tests/test_settings.py`) require the 401 of `require_auth`. -/
theorem settings_endpoints_not_session_gated :
    get_settings_endpoint ⟨[], some fixtureSettingsRow⟩ 0 none =
      .ok { aiops_url := "http://localhost:8000", api_token := "test_token",
            ssh_host := "localhost", ssh_port := 22, test_path := "/opt/tests",
            timeout := 30, parallel_execution := false, max_parallel := 5,
            retry_failed := false, retry_count := 3 } ∧
    save_settings_endpoint ⟨[], some fixtureSettingsRow⟩ 0 none {} =
      .error ⟨500, "Internal Server Error"⟩ ∧
    test_connection_endpoint ⟨[], none⟩ 0 none "http://test.com" none
        (.response 200 "text/html" "ok") =
      .ok { success := true, message := "Connection successful",
            status_code := 200, response := some "ok" } :=
  ⟨rfl, rfl, rfl⟩

/-- Counterexample for C2 as stated: status 201 is a 2xx status code, yet
`test_connection` classifies it as a failure (`success = false`), because
the code tests `status_code == 200`, not membership in 2xx. -/
theorem test_connection_201_not_success :
    test_connection "http://test.com" none
        (.response 201 "application/json" "created") =
      .ok { success := false, message := "Connection failed with status 201",
            status_code := 201, response := none } :=
  rfl

/-- C2 (amended): for every non-empty url, `test_connection` classifies the
probe outcome exhaustively — a response is a success echoing the body
exactly when its status code is 200 (any other status, 2xx included, is a
failure reporting that code), a connection failure raises 503, a timeout
raises 504; an empty url raises 400 whatever the outcome would have been
(i.e. before any request). -/
theorem test_connection_classification (url : String) (token : Option String)
    (h : url ≠ "") :
    (∀ status contentType body, ∃ r,
        test_connection url token (.response status contentType body) = .ok r ∧
        (r.success = true ↔ status = 200) ∧
        r.status_code = status ∧
        (status = 200 →
          r.response = some (if contentType.startsWith "application/json"
                             then body else body.take 200)) ∧
        (status ≠ 200 →
          r.message = "Connection failed with status " ++ toString status)) ∧
    (∃ e, test_connection url token .connectError = .error e ∧
        e.status = 503) ∧
    (∃ e, test_connection url token .timeoutError = .error e ∧
        e.status = 504) ∧
    (∀ token2 outcome, test_connection "" token2 outcome =
        .error ⟨400, "URL is required"⟩) := by
  refine ⟨?_, ?_, ?_, ?_⟩
  · intro status contentType body
    by_cases hs : status = 200
    · subst hs
      exact ⟨{ success := true, message := "Connection successful",
               status_code := 200,
               response := some (if contentType.startsWith "application/json"
                                 then body else body.take 200) },
             by simp [test_connection, h], by simp, rfl, fun _ => rfl,
             fun hc => absurd rfl hc⟩
    · exact ⟨{ success := false,
               message := "Connection failed with status " ++ toString status,
               status_code := status, response := none },
             by simp [test_connection, h, hs], by simp [hs], rfl,
             fun hc => absurd hc hs, fun _ => rfl⟩
  · exact ⟨⟨503, "Cannot connect to the target system. Please check the URL and network connectivity."⟩,
           by simp [test_connection, h], rfl⟩
  · exact ⟨⟨504, "Connection timeout. The target system is not responding."⟩,
           by simp [test_connection, h], rfl⟩
  · intro token2 outcome
    simp [test_connection]

/-- Witness for C2: concrete probes through the classification theorem. -/
theorem test_connection_classification_witness :
    (∃ r, test_connection "http://x" none (.response 404 "text/plain" "b") =
        .ok r ∧ (r.success = true ↔ (404 : Nat) = 200) ∧
        r.status_code = 404) ∧
    (∃ e, test_connection "http://x" none .connectError = .error e ∧
        e.status = 503) := by
  have h := test_connection_classification "http://x" none (by decide)
  obtain ⟨h1, h2, _, _⟩ := h
  obtain ⟨r, hr, hs, hc, _, _⟩ := h1 404 "text/plain" "b"
  exact ⟨⟨r, hr, hs, hc⟩, h2⟩

/-- A concrete admin user used to instantiate session-gated calls. -/
def aliceUser : User :=
  { id := 1, username := "alice", email := "alice@example.com"
    hashed_password := get_password_hash "pw"
    is_admin := true, is_active := true, last_login := none }

/-- A full settings payload whose `timeout` is 0 (every field present). -/
def zeroTimeoutPayload : SettingsUpdate :=
  { aiops_url := some "http://a", api_token := some "t", ssh_host := some "h"
    ssh_port := some 2222, test_path := some "/p", timeout := some 0
    parallel_execution := true, max_parallel := 7, retry_failed := true
    retry_count := 2 }

set_option maxRecDepth 8000 in
/-- Counterexample for C3 as stated: a full payload carrying `timeout = 0`
is saved, but the following `GET` renders `timeout` through Python's
`settings.timeout or 30` and answers 30, not 0 — save-then-get is not the
identity on all ten fields. -/
theorem save_then_get_not_identity :
    zeroTimeoutPayload.timeout = some 0 ∧
    (save_settings_endpoint ⟨[aliceUser], none⟩ 0
        (some (create_access_token "alice" 0)) zeroTimeoutPayload).map
      (fun p => (get_settings_body p.1).timeout) = .ok 30 :=
  ⟨rfl, rfl⟩

/-- C3 (amended): for every full settings payload whose `ssh_port` and
`timeout` are nonzero, an authenticated `POST /api/settings` followed by
`GET /api/settings` returns every one of the ten fields unchanged. (The
`get_settings` renderer passes nullable columns through Python's `or`, so a
saved 0 in `ssh_port` or `timeout` comes back as the default 22 resp. 30;
every other full payload round-trips, empty strings included.) -/
theorem save_then_get_identity
    (db : DB) (now : Nat) (cookie : Option Token) (u : User)
    (hauth : get_current_user db now cookie = some u)
    (a tokv hst pth : String) (sp ti mp rc : Int) (pe rf : Bool)
    (hsp : sp ≠ 0) (hti : ti ≠ 0) :
    ∃ db' m,
      save_settings_endpoint db now cookie
        { aiops_url := some a, api_token := some tokv, ssh_host := some hst,
          ssh_port := some sp, test_path := some pth, timeout := some ti,
          parallel_execution := pe, max_parallel := mp,
          retry_failed := rf, retry_count := rc } = .ok (db', m) ∧
      ∀ now2 cookie2, get_settings_endpoint db' now2 cookie2 =
        .ok { aiops_url := a, api_token := tokv, ssh_host := hst,
              ssh_port := sp, test_path := pth, timeout := ti,
              parallel_execution := pe, max_parallel := mp,
              retry_failed := rf, retry_count := rc } := by
  refine ⟨⟨db.users, some ⟨some a, some tokv, some hst, some sp, some pth,
            some ti, pe, mp, rf, rc, some u.username⟩⟩,
          "Settings saved successfully", ?_, ?_⟩
  · simp [save_settings_endpoint, hauth, save_settings]
  · intro now2 cookie2
    simp only [get_settings_endpoint, get_settings_body, renderSettings,
               pyOrStr, pyOrInt]
    simp [SettingsOut.mk.injEq, hsp, hti]
    exact ⟨fun h => h.symm, fun h => h.symm, fun h => h.symm, fun h => h.symm⟩

set_option maxRecDepth 8000 in
/-- Witness for C3 (amended): a concrete authenticated save of a full
nonzero payload round-trips through the subsequent get. -/
theorem save_then_get_identity_witness :
    ∃ db' m,
      save_settings_endpoint ⟨[aliceUser], none⟩ 0
        (some (create_access_token "alice" 0))
        { aiops_url := some "http://u", api_token := some "t",
          ssh_host := some "h", ssh_port := some 2222,
          test_path := some "/p", timeout := some 60,
          parallel_execution := true, max_parallel := 9,
          retry_failed := true, retry_count := 4 } = .ok (db', m) ∧
      ∀ now2 cookie2, get_settings_endpoint db' now2 cookie2 =
        .ok { aiops_url := "http://u", api_token := "t", ssh_host := "h",
              ssh_port := 2222, test_path := "/p", timeout := 60,
              parallel_execution := true, max_parallel := 9,
              retry_failed := true, retry_count := 4 } :=
  save_then_get_identity ⟨[aliceUser], none⟩ 0
    (some (create_access_token "alice" 0)) aliceUser (by decide)
    "http://u" "t" "h" "/p" 2222 60 9 4 true true
    (by decide) (by decide)

/-- Overwrite the stored credentials (hash and active flag) of the user
named `name`, leaving everyone else alone — the database change the claim
quantifies over. -/
def set_credentials (name pw : String) (act : Bool) (u : User) : User :=
  if u.username = name then { u with hashed_password := pw, is_active := act }
  else u

theorem set_credentials_username (name pw : String) (act : Bool) (v : User) :
    (set_credentials name pw act v).username = v.username := by
  unfold set_credentials
  split <;> rfl

/-- Helper: an unexpired token signed with the app's key resolves through
`get_current_user` to the username lookup for its subject. -/
theorem get_current_user_valid_token (db : DB) (name : String) (iat now : Nat)
    (hexp : now < iat + ACCESS_TOKEN_EXPIRE_MINUTES * 60) :
    get_current_user db now (some (create_access_token name iat)) =
      findUserByName db.users name := by
  simp [get_current_user, verify_token, create_access_token, hexp]

/-- C5: a token created for user `name` that is unexpired and signed with
the app's key resolves to the user of that name even after that user's
stored password hash and active flag have been overwritten arbitrarily —
`get_current_user` looks only at the signature, the expiry and the
username; `is_active` is never consulted. -/
theorem token_resolution_ignores_credential_changes
    (users : List User) (srow : Option SettingsRow) (name pw : String)
    (act : Bool) (iat now : Nat)
    (hexp : now < iat + ACCESS_TOKEN_EXPIRE_MINUTES * 60)
    (huser : ∃ v ∈ users, v.username = name) :
    ∃ u, get_current_user ⟨users.map (set_credentials name pw act), srow⟩ now
          (some (create_access_token name iat)) = some u ∧
        u.username = name ∧ u.hashed_password = pw ∧ u.is_active = act := by
  have hsome : (findUserByName users name).isSome := by
    rw [findUserByName, List.find?_isSome]
    obtain ⟨v, hv, hvn⟩ := huser
    exact ⟨v, hv, by simp [hvn]⟩
  obtain ⟨u0, hu0⟩ := Option.isSome_iff_exists.mp hsome
  have hu0' : users.find? (fun u => u.username = name) = some u0 := hu0
  have hu0n : u0.username = name := by
    have h := List.find?_some hu0'
    simpa using h
  refine ⟨set_credentials name pw act u0, ?_, ?_, ?_, ?_⟩
  · rw [get_current_user_valid_token _ _ _ _ hexp]
    show findUserByName (users.map (set_credentials name pw act)) name = _
    rw [findUserByName_map _ (set_credentials_username name pw act), hu0]
    rfl
  · simp [set_credentials_username, hu0n]
  · simp [set_credentials, hu0n]
  · simp [set_credentials, hu0n]

set_option maxRecDepth 8000 in
/-- Witness for C5: alice's stored hash and active flag are overwritten
(the account even deactivated), yet her unexpired token still resolves. -/
theorem token_resolution_ignores_credential_changes_witness :
    ∃ u, get_current_user
          ⟨[aliceUser].map (set_credentials "alice" "other-hash" false),
           none⟩ 10 (some (create_access_token "alice" 0)) = some u ∧
        u.username = "alice" ∧ u.hashed_password = "other-hash" ∧
        u.is_active = false :=
  token_resolution_ignores_credential_changes [aliceUser] none "alice"
    "other-hash" false 0 10 (by decide) ⟨aliceUser, by simp, rfl⟩

/-- Helper: the post-state of one registration keeps usernames and emails
globally unique. -/
theorem register_post_unique (db : DB) (username email password : String)
    (nextId : Nat) (hu : uniqueUsers db.users) :
    uniqueUsers (register_post db username email password nextId).users := by
  by_cases h1 : (findUserByName db.users username).isSome
  · simpa [register_post, register_user, h1] using hu
  · by_cases h2 : (findUserByEmail db.users email).isSome
    · simpa [register_post, register_user, h1, h2] using hu
    · simp only [register_post, register_user, h1, h2, Bool.false_eq_true,
                 if_false, if_true, ite_false, ite_true]
      rw [uniqueUsers, List.pairwise_append]
      refine ⟨hu, by simp, ?_⟩
      intro x hx y hy
      have hyn : y = { id := nextId, username := username, email := email,
                       hashed_password := get_password_hash password,
                       is_admin := false, is_active := true,
                       last_login := none } := by simpa using hy
      subst hyn
      have hf1 := List.find?_eq_none.mp
        (Option.not_isSome_iff_eq_none.mp h1) x hx
      have hf2 := List.find?_eq_none.mp
        (Option.not_isSome_iff_eq_none.mp h2) x hx
      simp only [decide_eq_true_eq] at hf1 hf2
      exact ⟨hf1, hf2⟩

/-- Helper: uniqueness survives any sequence of registrations. -/
theorem register_seq_unique (db : DB)
    (reqs : List (String × String × String × Nat))
    (hu : uniqueUsers db.users) :
    uniqueUsers (register_seq db reqs).users := by
  induction reqs generalizing db with
  | nil => exact hu
  | cons r rs ih =>
    simp only [register_seq, List.foldl_cons]
    exact ih _ (register_post_unique _ _ _ _ _ hu)

/-- C6: registering a username that already exists, or an email that
already exists, fails with 400 and (no commit having happened) creates no
user; and username/email global uniqueness is preserved by each
registration and hence by every sequence of registrations. -/
theorem register_duplicates_rejected (db : DB)
    (username email password : String) (nextId : Nat) :
    ((∃ v ∈ db.users, v.username = username) →
       ∃ d, register_user db username email password nextId = .error d ∧
         d.status = 400) ∧
    ((∃ v ∈ db.users, v.email = email) →
       ∃ d, register_user db username email password nextId = .error d ∧
         d.status = 400) ∧
    (uniqueUsers db.users →
       uniqueUsers (register_post db username email password nextId).users) ∧
    (∀ reqs, uniqueUsers db.users →
       uniqueUsers (register_seq db reqs).users) := by
  refine ⟨?_, ?_, fun hu => register_post_unique _ _ _ _ _ hu,
          fun reqs hu => register_seq_unique _ _ hu⟩
  · intro h
    have h1 : (findUserByName db.users username).isSome := by
      rw [findUserByName, List.find?_isSome]
      obtain ⟨v, hv, hvn⟩ := h
      exact ⟨v, hv, by simp [hvn]⟩
    exact ⟨⟨400, "Username already exists"⟩,
           by simp [register_user, h1], rfl⟩
  · intro h
    by_cases h1 : (findUserByName db.users username).isSome
    · exact ⟨⟨400, "Username already exists"⟩,
             by simp [register_user, h1], rfl⟩
    · have h2 : (findUserByEmail db.users email).isSome := by
        rw [findUserByEmail, List.find?_isSome]
        obtain ⟨v, hv, hvn⟩ := h
        exact ⟨v, hv, by simp [hvn]⟩
      exact ⟨⟨400, "Email already exists"⟩,
             by simp [register_user, h1, h2], rfl⟩

set_option maxRecDepth 8000 in
/-- Witness for C6: registering alice's username again fails with 400, and
a concrete registration sequence keeps the table unique. -/
theorem register_duplicates_rejected_witness :
    (∃ d, register_user ⟨[aliceUser], none⟩ "alice" "x@y" "p" 2 =
        .error d ∧ d.status = 400) ∧
    uniqueUsers (register_seq ⟨[aliceUser], none⟩
        [("bob", "b@y", "p", 2), ("alice", "z@y", "p", 3)]).users := by
  have h := register_duplicates_rejected ⟨[aliceUser], none⟩ "alice" "x@y" "p" 2
  have h2 := register_duplicates_rejected ⟨[aliceUser], none⟩ "bob" "b@y" "p" 2
  refine ⟨h.1 ⟨aliceUser, by simp, rfl⟩, ?_⟩
  exact h2.2.2.2 [("bob", "b@y", "p", 2), ("alice", "z@y", "p", 3)]
    (by simp [uniqueUsers])

/-- Helper: erasing the row with primary key `uid` from a table with
pairwise-distinct ids removes exactly the members with that id, shrinking
the table by one. -/
theorem eraseP_id_spec (l : List User) (uid : Nat)
    (hids : l.Pairwise (fun a b => a.id ≠ b.id))
    (u : User) (hu : u ∈ l) (huid : u.id = uid) :
    (∀ v, v ∈ l.eraseP (fun v => v.id = uid) ↔ (v ∈ l ∧ v.id ≠ uid)) ∧
    (l.eraseP (fun v => v.id = uid)).length + 1 = l.length := by
  induction l with
  | nil => cases hu
  | cons x xs ih =>
    rw [List.pairwise_cons] at hids
    by_cases hx : x.id = uid
    · rw [List.eraseP_cons_of_pos (by simp [hx])]
      constructor
      · intro v
        constructor
        · intro hv
          refine ⟨List.mem_cons_of_mem _ hv, fun hvid => ?_⟩
          exact hids.1 v hv (hx.trans hvid.symm)
        · rintro ⟨hv, hvid⟩
          rcases List.mem_cons.mp hv with h | h
          · exact absurd (h ▸ hx) hvid
          · exact h
      · rfl
    · have hu' : u ∈ xs := by
        rcases List.mem_cons.mp hu with h | h
        · exact absurd (h ▸ huid) hx
        · exact h
      obtain ⟨ihm, ihl⟩ := ih hids.2 hu'
      rw [List.eraseP_cons_of_neg (by simp [hx])]
      constructor
      · intro v
        rw [List.mem_cons, List.mem_cons, ihm v]
        constructor
        · rintro (h | ⟨h1, h2⟩)
          · exact ⟨Or.inl h, h ▸ hx⟩
          · exact ⟨Or.inr h1, h2⟩
        · rintro ⟨h | h, h2⟩
          · exact Or.inl h
          · exact Or.inr ⟨h, h2⟩
      · simpa using ihl

/-- C7: `DELETE /auth/users/{id}` fails 403 for a non-admin caller, 404
when the id resolves to no user, 400 when the resolved user is the caller
(each failure raising before any commit, so the table is unchanged), and
otherwise commits a table from which exactly the one user with that id has
been removed (ids are the primary key, hence pairwise distinct). -/
theorem delete_user_spec (db : DB) (current : User) (uid : Nat) :
    (current.is_admin = false →
       delete_user db current uid = .error ⟨403, "Admin access required"⟩) ∧
    (current.is_admin = true → findUserById db.users uid = none →
       delete_user db current uid = .error ⟨404, "User not found"⟩) ∧
    (∀ u, current.is_admin = true → findUserById db.users uid = some u →
       u.id = current.id →
       delete_user db current uid = .error ⟨400, "Cannot delete yourself"⟩) ∧
    (∀ u, current.is_admin = true → findUserById db.users uid = some u →
       u.id ≠ current.id →
       db.users.Pairwise (fun a b => a.id ≠ b.id) →
       ∃ db' m, delete_user db current uid = .ok (db', m) ∧
         (∀ v, v ∈ db'.users ↔ (v ∈ db.users ∧ v.id ≠ uid)) ∧
         db'.users.length + 1 = db.users.length ∧
         db'.settings = db.settings) := by
  refine ⟨?_, ?_, ?_, ?_⟩
  · intro h
    simp [delete_user, h]
  · intro h hn
    simp [delete_user, h, hn]
  · intro u h hf hid
    simp [delete_user, h, hf, hid]
  · intro u h hf hid hids
    have hfind : db.users.find? (fun v => v.id = uid) = some u := hf
    have humem : u ∈ db.users := List.mem_of_find?_eq_some hfind
    have huid : u.id = uid := by
      have := List.find?_some hfind
      simpa using this
    obtain ⟨hm, hl⟩ := eraseP_id_spec db.users uid hids u humem huid
    exact ⟨⟨db.users.eraseP (fun v => v.id = uid), db.settings⟩,
           "User " ++ u.username ++ " deleted successfully",
           by simp [delete_user, h, hf, hid], hm, hl, rfl⟩

set_option maxRecDepth 8000 in
/-- Witness for C7: a concrete admin deletes another user; exactly that
user disappears. The other branches are exercised on the same table. -/
theorem delete_user_spec_witness :
    (∃ db' m,
      delete_user
        ⟨[aliceUser,
          { id := 2, username := "bob", email := "bob@example.com",
            hashed_password := get_password_hash "q",
            is_admin := false, is_active := true, last_login := none }],
         none⟩ aliceUser 2 = .ok (db', m) ∧
      (∀ v, v ∈ db'.users ↔
        (v ∈ [aliceUser,
          { id := 2, username := "bob", email := "bob@example.com",
            hashed_password := get_password_hash "q",
            is_admin := false, is_active := true, last_login := none }] ∧
         v.id ≠ 2)) ∧
      db'.users.length + 1 = 2 ∧ db'.settings = none) ∧
    delete_user ⟨[aliceUser], none⟩ aliceUser 1 =
      .error ⟨400, "Cannot delete yourself"⟩ := by
  constructor
  · exact (delete_user_spec _ aliceUser 2).2.2.2 _ rfl rfl (by decide)
      (by simp [aliceUser])
  · exact (delete_user_spec ⟨[aliceUser], none⟩ aliceUser 1).2.2.1 aliceUser
      rfl rfl rfl

/-- C8: `POST /auth/token` with credentials matching a stored active user
returns a bearer token and stamps that user's `last_login`; an unknown
username, a wrong password, or an inactive account each fail with 401 (no
token issued, no commit). -/
theorem login_spec (db : DB) (now : Nat) (username password : String) :
    (findUserByName db.users username = none →
       login_for_access_token db now username password =
         .error ⟨401, "Invalid credentials"⟩) ∧
    (∀ u, findUserByName db.users username = some u →
       verify_password password u.hashed_password = false →
       login_for_access_token db now username password =
         .error ⟨401, "Invalid credentials"⟩) ∧
    (∀ u, findUserByName db.users username = some u →
       verify_password password u.hashed_password = true →
       u.is_active = false →
       login_for_access_token db now username password =
         .error ⟨401, "Inactive account"⟩) ∧
    (∀ u, findUserByName db.users username = some u →
       verify_password password u.hashed_password = true →
       u.is_active = true →
       ∃ db' out,
         login_for_access_token db now username password = .ok (db', out) ∧
         out.token_type = "bearer" ∧
         out.access_token = create_access_token u.username now ∧
         ∃ u', findUserByName db'.users username = some u' ∧
           u'.id = u.id ∧ u'.username = u.username ∧
           u'.last_login = some now) := by
  refine ⟨?_, ?_, ?_, ?_⟩
  · intro h
    simp [login_for_access_token, h]
  · intro u hf hv
    simp [login_for_access_token, hf, hv]
  · intro u hf hv hact
    simp [login_for_access_token, hf, hv, hact]
  · intro u hf hv hact
    have hun : u.username = username := by
      have hf' : db.users.find? (fun v => v.username = username) = some u := hf
      simpa using List.find?_some hf'
    refine ⟨⟨db.users.map (fun v =>
        if v.username = username then { v with last_login := some now }
        else v), db.settings⟩,
      ⟨create_access_token u.username now, "bearer"⟩,
      by simp [login_for_access_token, hf, hv, hact], rfl, rfl,
      { u with last_login := some now }, ?_, rfl, rfl, rfl⟩
    show findUserByName (db.users.map _) username = _
    rw [findUserByName_map _ (fun v => by split <;> rfl), hf]
    simp [hun]

set_option maxRecDepth 8000 in
/-- Witness for C8: alice logs in with her password; a bearer token comes
back and her `last_login` is stamped. A wrong password gets 401. -/
theorem login_spec_witness :
    (∃ db' out,
       login_for_access_token ⟨[aliceUser], none⟩ 5 "alice" "pw" =
         .ok (db', out) ∧
       out.token_type = "bearer" ∧
       out.access_token = create_access_token aliceUser.username 5 ∧
       ∃ u', findUserByName db'.users "alice" = some u' ∧
         u'.id = aliceUser.id ∧ u'.username = aliceUser.username ∧
         u'.last_login = some 5) ∧
    login_for_access_token ⟨[aliceUser], none⟩ 5 "alice" "wrong" =
      .error ⟨401, "Invalid credentials"⟩ := by
  constructor
  · exact (login_spec ⟨[aliceUser], none⟩ 5 "alice" "pw").2.2.2 aliceUser
      rfl (by decide) rfl
  · exact (login_spec ⟨[aliceUser], none⟩ 5 "alice" "wrong").2.1 aliceUser
      rfl (by decide)

/-- C9: with a valid unexpired token for user `u`, `GET /auth/me` answers
exactly u's five public fields — keys id, username, email, is_admin,
last_login, no `hashed_password` key — and the response is unchanged when
the stored hash is overwritten (it never depends on the hash). -/
theorem me_spec (users : List User) (srow : Option SettingsRow) (u : User)
    (iat now : Nat) (pw : String)
    (hexp : now < iat + ACCESS_TOKEN_EXPIRE_MINUTES * 60)
    (hfind : findUserByName users u.username = some u) :
    get_current_user_info ⟨users, srow⟩ now
        (some (create_access_token u.username iat)) = .ok (meResponse u) ∧
    (meResponse u).map Prod.fst =
      ["id", "username", "email", "is_admin", "last_login"] ∧
    "hashed_password" ∉ (meResponse u).map Prod.fst ∧
    get_current_user_info
        ⟨users.map (set_credentials u.username pw u.is_active), srow⟩ now
        (some (create_access_token u.username iat)) = .ok (meResponse u) := by
  have h1 : get_current_user ⟨users, srow⟩ now
      (some (create_access_token u.username iat)) = some u := by
    rw [get_current_user_valid_token _ _ _ _ hexp]
    exact hfind
  have h3 : set_credentials u.username pw u.is_active u =
      { u with hashed_password := pw, is_active := u.is_active } := by
    simp [set_credentials]
  have h2 : get_current_user
      ⟨users.map (set_credentials u.username pw u.is_active), srow⟩ now
      (some (create_access_token u.username iat)) =
      some { u with hashed_password := pw, is_active := u.is_active } := by
    rw [get_current_user_valid_token _ _ _ _ hexp]
    show findUserByName (users.map _) u.username = _
    rw [findUserByName_map _ (set_credentials_username _ _ _), hfind]
    simp [h3]
  refine ⟨?_, rfl, by simp [meResponse], ?_⟩
  · simp [get_current_user_info, require_auth, h1]
  · simp [get_current_user_info, require_auth, h2]
    rfl

set_option maxRecDepth 8000 in
/-- Witness for C9: alice's `/me`, before and after her stored hash is
overwritten with another value. -/
theorem me_spec_witness :
    get_current_user_info ⟨[aliceUser], none⟩ 10
        (some (create_access_token aliceUser.username 0)) =
      .ok (meResponse aliceUser) ∧
    (meResponse aliceUser).map Prod.fst =
      ["id", "username", "email", "is_admin", "last_login"] ∧
    "hashed_password" ∉ (meResponse aliceUser).map Prod.fst ∧
    get_current_user_info
        ⟨[aliceUser].map
          (set_credentials aliceUser.username "other" aliceUser.is_active),
         none⟩ 10
        (some (create_access_token aliceUser.username 0)) =
      .ok (meResponse aliceUser) :=
  me_spec [aliceUser] none aliceUser 0 10 "other" (by decide) rfl

/-- C10: every user `POST /auth/register` creates has `is_admin = false`
and `is_active = true` — the handler hard-codes both flags and the request
carries only username, email and password. -/
theorem register_always_plain_user (db : DB) (username email password : String)
    (nextId : Nat) (db' : DB) (out : RegisterOut)
    (h : register_user db username email password nextId = .ok (db', out)) :
    ∃ nu : User, db'.users = db.users ++ [nu] ∧
      nu.is_admin = false ∧ nu.is_active = true ∧
      nu.username = username ∧ nu.email = email := by
  by_cases h1 : (findUserByName db.users username).isSome
  · simp [register_user, h1] at h
  · by_cases h2 : (findUserByEmail db.users email).isSome
    · simp [register_user, h1, h2] at h
    · simp [register_user, h1, h2] at h
      exact ⟨{ id := nextId, username := username, email := email,
               hashed_password := get_password_hash password,
               is_admin := false, is_active := true, last_login := none },
             by rw [← h.1], rfl, rfl, rfl, rfl⟩

/-- Witness for C10: registering bob into an empty table yields exactly one
new non-admin, active user. -/
theorem register_always_plain_user_witness :
    ∃ nu : User,
      (DB.mk [{ id := 7, username := "bob", email := "bob@x",
                hashed_password := get_password_hash "pw",
                is_admin := false, is_active := true,
                last_login := none }] none).users =
        (DB.mk [] none).users ++ [nu] ∧
      nu.is_admin = false ∧ nu.is_active = true ∧
      nu.username = "bob" ∧ nu.email = "bob@x" :=
  register_always_plain_user ⟨[], none⟩ "bob" "bob@x" "pw" 7
    ⟨[{ id := 7, username := "bob", email := "bob@x",
        hashed_password := get_password_hash "pw",
        is_admin := false, is_active := true, last_login := none }], none⟩
    ⟨7, "bob", "bob@x", "User created successfully"⟩ rfl

end AiopsWebapp
